import Mathlib

/-!
Shallow embedding of the rolling-balls physics core of
`pi_visualization/rolling_balls.py` (class `Ball` and the per-frame update
loop of `run_rolling_balls`), together with theorems settling the frozen
claims about it.

Python floats are modelled by real numbers; `x ** 0.5` is `Real.sqrt`.
A Python `ZeroDivisionError` (the interpreter aborts the frame) is modelled
by returning `none`: every division in `check_collision` is guarded by a
zero test on its divisor, and a zero divisor yields `none`.
-/

namespace RollingBalls

noncomputable section

/-- Screen width constant from the source (`SCREEN_WIDTH = 800`). -/
def SCREEN_WIDTH : ℝ := 800

/-- Screen height constant from the source (`SCREEN_HEIGHT = 600`). -/
def SCREEN_HEIGHT : ℝ := 600

/-- The mutable state of one `Ball` object: digit label, position, radius,
color, velocity and mass.  The pygame font/text surfaces are render-only
and are not part of the physical state. -/
structure Ball where
  digit : ℕ
  x : ℝ
  y : ℝ
  radius : ℝ
  color : ℕ × ℕ × ℕ
  speed_x : ℝ
  speed_y : ℝ
  mass : ℝ

/-- Constructor `Ball.__init__`: it stores its arguments and sets
`mass = radius * 0.5`.  The two random initial speed components drawn by
`random.uniform(-2, 2)` are passed in as explicit arguments. -/
def mkBall (digit : ℕ) (x y : ℝ) (radius : ℝ) (color : ℕ × ℕ × ℕ)
    (speed_x speed_y : ℝ) : Ball :=
  { digit := digit, x := x, y := y, radius := radius, color := color,
    speed_x := speed_x, speed_y := speed_y, mass := radius * 0.5 }

/-- Method `Ball.move`: Euler position update, wall clamp with restitution
`-0.95` per axis (an `if`/`elif` pair per axis), then gravity
`speed_y += 0.1` followed by damping `*= 0.995` on both components. -/
def move (b : Ball) : Ball :=
  let x1 := b.x + b.speed_x
  let y1 := b.y + b.speed_y
  let x2 := if x1 - b.radius < 0 then b.radius
            else if x1 + b.radius > SCREEN_WIDTH then SCREEN_WIDTH - b.radius
            else x1
  let sx2 := if x1 - b.radius < 0 then b.speed_x * (-0.95)
             else if x1 + b.radius > SCREEN_WIDTH then b.speed_x * (-0.95)
             else b.speed_x
  let y2 := if y1 - b.radius < 0 then b.radius
            else if y1 + b.radius > SCREEN_HEIGHT then SCREEN_HEIGHT - b.radius
            else y1
  let sy2 := if y1 - b.radius < 0 then b.speed_y * (-0.95)
             else if y1 + b.radius > SCREEN_HEIGHT then b.speed_y * (-0.95)
             else b.speed_y
  { b with x := x2, y := y2,
           speed_x := sx2 * 0.995,
           speed_y := (sy2 + 0.1) * 0.995 }

/-- Euclidean center distance, `(dx**2 + dy**2)**0.5` as computed at the
top of `Ball.check_collision`. -/
def dist (a b : Ball) : ℝ :=
  Real.sqrt ((b.x - a.x) ^ 2 + (b.y - a.y) ^ 2)

/-- Method `Ball.check_collision`: if the centers are closer than the radius sum,
apply the per-axis elastic exchange formulas (dividing by `total_mass`)
and then the overlap separation (dividing by `distance`).  A zero divisor
models the `ZeroDivisionError` as `none`.  The non-colliding case leaves
both balls unchanged. -/
def check_collision (self other_ball : Ball) : Option (Ball × Ball) :=
  let dx := other_ball.x - self.x
  let dy := other_ball.y - self.y
  let distance := Real.sqrt (dx ^ 2 + dy ^ 2)
  if distance < self.radius + other_ball.radius then
    if self.mass + other_ball.mass = 0 then none
    else
      let total_mass := self.mass + other_ball.mass
      let v1x := ((self.mass - other_ball.mass) * self.speed_x +
                  2 * other_ball.mass * other_ball.speed_x) / total_mass
      let v1y := ((self.mass - other_ball.mass) * self.speed_y +
                  2 * other_ball.mass * other_ball.speed_y) / total_mass
      let v2x := ((other_ball.mass - self.mass) * other_ball.speed_x +
                  2 * self.mass * self.speed_x) / total_mass
      let v2y := ((other_ball.mass - self.mass) * other_ball.speed_y +
                  2 * self.mass * self.speed_y) / total_mass
      if distance = 0 then none
      else
        let overlap := 0.5 * (self.radius + other_ball.radius - distance + 1)
        some ({ self with speed_x := v1x, speed_y := v1y,
                          x := self.x - overlap * dx / distance,
                          y := self.y - overlap * dy / distance },
              { other_ball with speed_x := v2x, speed_y := v2y,
                                x := other_ball.x + overlap * dx / distance,
                                y := other_ball.y + overlap * dy / distance })
  else
    some (self, other_ball)

/-- The inner loop `for j in range(i + 1, len(balls)): ball.check_collision(balls[j])`:
the already-moved ball `b` is collided against each later ball in order,
threading the in-place mutations of both participants. -/
def collideWithRest : Ball → List Ball → Option (Ball × List Ball)
  | b, [] => some (b, [])
  | b, c :: cs =>
    match check_collision b c with
    | none => none
    | some (bc, c2) =>
      match collideWithRest bc cs with
      | none => none
      | some (b2, cs2) => some (b2, c2 :: cs2)

/-- One frame of the update loop (`for i, ball in enumerate(balls):
ball.move(); for j in range(i+1, ...): ...`), recursing on a fuel argument.
`collideWithRest` preserves the list length, so fuel equal to the initial
list length (as supplied by `step`) never runs out; the fuel-exhaustion
branch is unreachable. -/
def stepAux : ℕ → List Ball → Option (List Ball)
  | _, [] => some []
  | 0, _ :: _ => none
  | Nat.succ n, b :: rest =>
    match collideWithRest (move b) rest with
    | none => none
    | some (b2, rest2) =>
      match stepAux n rest2 with
      | none => none
      | some rest3 => some (b2 :: rest3)

/-- One full physics frame over the ball list. -/
def step (balls : List Ball) : Option (List Ball) :=
  stepAux balls.length balls

/-- Simulation state: the ball collection plus the `paused` flag toggled by
the space key in `run_rolling_balls`. -/
structure Sim where
  balls : List Ball
  paused : Bool

/-- One iteration of the main loop body: `if not paused:` run the physics
frame, otherwise leave every ball untouched. -/
def simStep (s : Sim) : Option Sim :=
  if s.paused then some s
  else
    match step s.balls with
    | none => none
    | some bs => some { s with balls := bs }

/-- Runs `n` consecutive main-loop iterations. -/
def simSteps : ℕ → Sim → Option Sim
  | 0, s => some s
  | Nat.succ n, s =>
    match simStep s with
    | none => none
    | some s2 => simSteps n s2

/-- Radius assignment of the ball-creation loop in `run_rolling_balls`:
`digit_counts[digit] += 1; radius = 20 + digit_counts[digit] // 3;
radius = min(radius, 40)`, threading the occurrence-count table. -/
def ballRadii : List ℕ → (ℕ → ℕ) → List ℕ
  | [], _ => []
  | d :: ds, counts =>
    let c := counts d + 1
    min (20 + c / 3) 40 :: ballRadii ds (fun k => if k = d then c else counts k)

/-- The radii assigned by `run_rolling_balls` for a digit input: it uses
`pi_digits[:min(max_balls, len(pi_digits))]` and starts with empty counts. -/
def runRadii (pi_digits : List ℕ) (max_balls : ℕ) : List ℕ :=
  ballRadii (pi_digits.take (min max_balls pi_digits.length)) (fun _ => 0)

/-- Radius assignment as the claim words it: base 20 incremented by
`occurrences_so_far // 3` counting only occurrences of the digit ALREADY
placed (excluding the current one), capped at 40.  Written from the claim
text, to be compared with `ballRadii` from the source. -/
def ballRadiiClaim : List ℕ → (ℕ → ℕ) → List ℕ
  | [], _ => []
  | d :: ds, counts =>
    min (20 + counts d / 3) 40 ::
      ballRadiiClaim ds (fun k => if k = d then counts k + 1 else counts k)

/-- Lemma: `move` writes only `x`, `y`, `speed_x`, `speed_y`: the identity fields
are untouched. -/
theorem move_fields (b : Ball) :
    (move b).digit = b.digit ∧ (move b).radius = b.radius ∧
    (move b).color = b.color ∧ (move b).mass = b.mass :=
  ⟨rfl, rfl, rfl, rfl⟩

/-- Lemma: `check_collision` writes only velocities and positions of the two
participants: digit, radius, color and mass of both are untouched. -/
theorem check_collision_fields {a b a2 b2 : Ball}
    (h : check_collision a b = some (a2, b2)) :
    (a2.digit = a.digit ∧ a2.radius = a.radius ∧ a2.color = a.color ∧
      a2.mass = a.mass) ∧
    (b2.digit = b.digit ∧ b2.radius = b.radius ∧ b2.color = b.color ∧
      b2.mass = b.mass) := by
  simp only [check_collision] at h
  split_ifs at h with h1 h2 h3
  all_goals first
    | exact Option.noConfusion h
    | (rw [Option.some.injEq, Prod.mk.injEq] at h
       obtain ⟨ha, hb⟩ := h
       subst ha; subst hb
       exact ⟨⟨rfl, rfl, rfl, rfl⟩, ⟨rfl, rfl, rfl, rfl⟩⟩)

/-- Lemma: `collideWithRest` preserves the length of the list it threads. -/
theorem collideWithRest_length {b : Ball} {l : List Ball} {b2 : Ball}
    {l2 : List Ball} (h : collideWithRest b l = some (b2, l2)) :
    l2.length = l.length := by
  induction l generalizing b b2 l2 with
  | nil =>
    simp only [collideWithRest, Option.some.injEq, Prod.mk.injEq] at h
    rw [← h.2]
  | cons c cs ih =>
    simp only [collideWithRest] at h
    rcases hc : check_collision b c with _ | ⟨bc, c2⟩ <;> simp only [hc] at h
    · exact Option.noConfusion h
    · rcases hr : collideWithRest bc cs with _ | ⟨b3, cs2⟩ <;>
        simp only [hr] at h
      · exact Option.noConfusion h
      · rw [Option.some.injEq, Prod.mk.injEq] at h
        rw [← h.2, List.length_cons, List.length_cons, ih hr]

/-- Evaluation of `step` on the empty list. -/
theorem step_nil : step [] = some [] := rfl

/-- Clean recursion equation for `step`: the fuel supplied by `step` never
runs out because `collideWithRest` preserves list length. -/
theorem step_cons (b : Ball) (rest : List Ball) :
    step (b :: rest) =
      match collideWithRest (move b) rest with
      | none => none
      | some (b2, rest2) =>
        match step rest2 with
        | none => none
        | some rest3 => some (b2 :: rest3) := by
  show stepAux (Nat.succ rest.length) (b :: rest) = _
  rcases hc : collideWithRest (move b) rest with _ | ⟨b2, rest2⟩ <;>
    simp only [stepAux, hc]
  rw [step, collideWithRest_length hc]

/-- Evaluates `Real.sqrt` at a perfect square. -/
theorem sqrt_eval {a b : ℝ} (hb : 0 ≤ b) (h : b ^ 2 = a) :
    Real.sqrt a = b := by
  rw [← h]; exact Real.sqrt_sq hb

/-- Evaluation of `move` on a ball that touches no wall this frame. -/
theorem move_eval (b : Ball) (h1 : ¬(b.x + b.speed_x - b.radius < 0))
    (h2 : ¬(b.x + b.speed_x + b.radius > SCREEN_WIDTH))
    (h3 : ¬(b.y + b.speed_y - b.radius < 0))
    (h4 : ¬(b.y + b.speed_y + b.radius > SCREEN_HEIGHT)) :
    move b = { b with x := b.x + b.speed_x, y := b.y + b.speed_y,
                      speed_x := b.speed_x * 0.995,
                      speed_y := (b.speed_y + 0.1) * 0.995 } := by
  simp only [move, if_neg h1, if_neg h2, if_neg h3, if_neg h4]

/-- Evaluation of `check_collision` on a colliding pair, with the center distance given
as an explicit value `d`. -/
theorem check_collision_eval (a b : Ball) (d : ℝ)
    (hd : Real.sqrt ((b.x - a.x) ^ 2 + (b.y - a.y) ^ 2) = d)
    (hcol : d < a.radius + b.radius) (hm : ¬(a.mass + b.mass = 0))
    (hd0 : ¬(d = 0)) :
    check_collision a b =
      some ({ a with x := a.x - 0.5 * (a.radius + b.radius - d + 1) *
                            (b.x - a.x) / d,
                     y := a.y - 0.5 * (a.radius + b.radius - d + 1) *
                            (b.y - a.y) / d,
                     speed_x := ((a.mass - b.mass) * a.speed_x +
                                 2 * b.mass * b.speed_x) / (a.mass + b.mass),
                     speed_y := ((a.mass - b.mass) * a.speed_y +
                                 2 * b.mass * b.speed_y) / (a.mass + b.mass) },
            { b with x := b.x + 0.5 * (a.radius + b.radius - d + 1) *
                            (b.x - a.x) / d,
                     y := b.y + 0.5 * (a.radius + b.radius - d + 1) *
                            (b.y - a.y) / d,
                     speed_x := ((b.mass - a.mass) * b.speed_x +
                                 2 * a.mass * a.speed_x) / (a.mass + b.mass),
                     speed_y := ((b.mass - a.mass) * b.speed_y +
                                 2 * a.mass * a.speed_y) / (a.mass + b.mass) }) := by
  simp only [check_collision, hd, if_pos hcol, if_neg hm, if_neg hd0]

/-- A ball state reachable from `b0` by any sequence of `move` calls and
collision resolutions (on either side of a `check_collision` that
completed without a division error). -/
inductive BallReach (b0 : Ball) : Ball → Prop
  | refl : BallReach b0 b0
  | mv {c : Ball} : BallReach b0 c → BallReach b0 (move c)
  | colL {c d c2 d2 : Ball} :
      BallReach b0 c → check_collision c d = some (c2, d2) → BallReach b0 c2
  | colR {c d d2 c2 : Ball} :
      BallReach b0 c → check_collision d c = some (d2, c2) → BallReach b0 c2

/-- Claim C3: a ball constructed with positive radius keeps its digit,
radius and color through every sequence of `move` and successful
`check_collision` operations, its radius stays positive, and
`mass = 0.5 * radius` holds throughout (mass is set once by the
constructor and never recomputed). -/
theorem ball_identity_invariant (dg : ℕ) (x y r : ℝ) (col : ℕ × ℕ × ℕ)
    (sx sy : ℝ) (hr : 0 < r) (b : Ball)
    (h : BallReach (mkBall dg x y r col sx sy) b) :
    b.digit = dg ∧ b.radius = r ∧ b.color = col ∧
      b.mass = 0.5 * b.radius ∧ 0 < b.radius := by
  induction h with
  | refl => exact ⟨rfl, rfl, rfl, mul_comm r 0.5, hr⟩
  | mv hc ih =>
    obtain ⟨i1, i2, i3, i4, i5⟩ := ih
    obtain ⟨m1, m2, m3, m4⟩ := move_fields _
    refine ⟨m1.trans i1, m2.trans i2, m3.trans i3, ?_, ?_⟩
    · rw [m4, m2]; exact i4
    · rw [m2]; exact i5
  | colL hc hcc ih =>
    obtain ⟨i1, i2, i3, i4, i5⟩ := ih
    obtain ⟨⟨f1, f2, f3, f4⟩, -⟩ := check_collision_fields hcc
    refine ⟨f1.trans i1, f2.trans i2, f3.trans i3, ?_, ?_⟩
    · rw [f4, f2]; exact i4
    · rw [f2]; exact i5
  | colR hc hcc ih =>
    obtain ⟨i1, i2, i3, i4, i5⟩ := ih
    obtain ⟨-, f1, f2, f3, f4⟩ := check_collision_fields hcc
    refine ⟨f1.trans i1, f2.trans i2, f3.trans i3, ?_, ?_⟩
    · rw [f4, f2]; exact i4
    · rw [f2]; exact i5

/-- Witness for claim C3 at a concrete ball of radius 20. -/
theorem ball_identity_invariant_witness :
    (0 : ℝ) < 20 ∧
      ((mkBall 3 400 300 20 (0, 0, 0) 1 1).digit = 3 ∧
       (mkBall 3 400 300 20 (0, 0, 0) 1 1).radius = 20 ∧
       (mkBall 3 400 300 20 (0, 0, 0) 1 1).color = (0, 0, 0) ∧
       (mkBall 3 400 300 20 (0, 0, 0) 1 1).mass =
         0.5 * (mkBall 3 400 300 20 (0, 0, 0) 1 1).radius ∧
       (0 : ℝ) < (mkBall 3 400 300 20 (0, 0, 0) 1 1).radius) :=
  ⟨by norm_num,
   ball_identity_invariant 3 400 300 20 (0, 0, 0) 1 1 (by norm_num) _
     BallReach.refl⟩

/-- Claim C8: while the simulation is paused, any number of main-loop
iterations leaves the state (every position and velocity) unchanged. -/
theorem simSteps_paused (n : ℕ) (s : Sim) (hp : s.paused = true) :
    simSteps n s = some s := by
  induction n with
  | zero => rfl
  | succ n ih => simp [simSteps, simStep, hp, ih]

/-- Witness for claim C8: five paused iterations on a one-ball state. -/
theorem simSteps_paused_witness :
    (Sim.mk [mkBall 3 100 100 20 (0, 0, 0) 1 1] true).paused = true ∧
      simSteps 5 (Sim.mk [mkBall 3 100 100 20 (0, 0, 0) 1 1] true) =
        some (Sim.mk [mkBall 3 100 100 20 (0, 0, 0) 1 1] true) :=
  ⟨rfl, simSteps_paused 5 _ rfl⟩

/-- Claim C1 (amended): immediately after the move of a ball (integration
plus wall clamp) the containment bounds hold for every ball whose diameter
fits the screen; the collision pass of the same frame can then displace a ball
outside these bounds, so the invariant does not survive a full `step`. -/
theorem move_containment (b : Ball) (hw : 2 * b.radius ≤ SCREEN_WIDTH)
    (hh : 2 * b.radius ≤ SCREEN_HEIGHT) :
    b.radius ≤ (move b).x ∧ (move b).x ≤ SCREEN_WIDTH - b.radius ∧
      b.radius ≤ (move b).y ∧ (move b).y ≤ SCREEN_HEIGHT - b.radius := by
  simp only [SCREEN_WIDTH, SCREEN_HEIGHT] at hw hh
  refine ⟨?_, ?_, ?_, ?_⟩ <;>
    · simp only [move, SCREEN_WIDTH, SCREEN_HEIGHT]
      split_ifs <;> linarith

/-- Witness for claim C1 (amended) at a concrete radius-20 ball. -/
theorem move_containment_witness :
    2 * (mkBall 3 400 300 20 (0, 0, 0) 0 0).radius ≤ SCREEN_WIDTH ∧
    2 * (mkBall 3 400 300 20 (0, 0, 0) 0 0).radius ≤ SCREEN_HEIGHT ∧
    ((mkBall 3 400 300 20 (0, 0, 0) 0 0).radius ≤
        (move (mkBall 3 400 300 20 (0, 0, 0) 0 0)).x ∧
      (move (mkBall 3 400 300 20 (0, 0, 0) 0 0)).x ≤
        SCREEN_WIDTH - (mkBall 3 400 300 20 (0, 0, 0) 0 0).radius ∧
      (mkBall 3 400 300 20 (0, 0, 0) 0 0).radius ≤
        (move (mkBall 3 400 300 20 (0, 0, 0) 0 0)).y ∧
      (move (mkBall 3 400 300 20 (0, 0, 0) 0 0)).y ≤
        SCREEN_HEIGHT - (mkBall 3 400 300 20 (0, 0, 0) 0 0).radius) :=
  ⟨by norm_num [mkBall, SCREEN_WIDTH],
   by norm_num [mkBall, SCREEN_HEIGHT],
   move_containment _ (by norm_num [mkBall, SCREEN_WIDTH])
     (by norm_num [mkBall, SCREEN_HEIGHT])⟩

/-- Claim C5 (amended): a radius-20 ball whose integration lands its
center at x = 15 (left edge at -5) is clamped to x = 20, and its bounce
sets speed_x to -0.95 times the pre-bounce value, after which the frame
damping multiplies by 0.995: the move call returns
speed_x = pre * -0.95 * 0.995. -/
theorem move_left_bounce (b : Ball) (hr : b.radius = 20)
    (hx : b.x + b.speed_x = 15) :
    (move b).x = 20 ∧ (move b).speed_x = b.speed_x * (-0.95) * 0.995 := by
  simp only [move]
  rw [hx, hr]
  norm_num

/-- Witness for claim C5 (amended) at a concrete ball. -/
theorem move_left_bounce_witness :
    (mkBall 7 20 300 20 (0, 0, 0) (-5) 0).radius = 20 ∧
    (mkBall 7 20 300 20 (0, 0, 0) (-5) 0).x +
        (mkBall 7 20 300 20 (0, 0, 0) (-5) 0).speed_x = 15 ∧
    ((move (mkBall 7 20 300 20 (0, 0, 0) (-5) 0)).x = 20 ∧
      (move (mkBall 7 20 300 20 (0, 0, 0) (-5) 0)).speed_x =
        (mkBall 7 20 300 20 (0, 0, 0) (-5) 0).speed_x * (-0.95) * 0.995) :=
  ⟨rfl, by norm_num [mkBall],
   move_left_bounce _ rfl (by norm_num [mkBall])⟩

/-- Claim C5 counterexample: at x = 20, speed_x = -5, radius 20 the
integration lands the left edge at -5; the frame clamps x to 20 but
returns speed_x = 4.72625, which is not -0.95 * (-5) = 4.75, because the
0.995 damping also applies to the bounced component in the same frame. -/
theorem move_left_bounce_cex :
    (move (mkBall 7 20 300 20 (0, 0, 0) (-5) 0)).x = 20 ∧
    (move (mkBall 7 20 300 20 (0, 0, 0) (-5) 0)).speed_x = 4.72625 ∧
    (move (mkBall 7 20 300 20 (0, 0, 0) (-5) 0)).speed_x ≠
      -0.95 * (mkBall 7 20 300 20 (0, 0, 0) (-5) 0).speed_x := by
  norm_num [move, mkBall, SCREEN_WIDTH, SCREEN_HEIGHT]

/-- Claim C4: a lone motionless ball at (400, 300) with radius 20 in the
800 by 600 viewport ends one `step` with speed_x = 0 and
speed_y = 0.1 * 0.995 (gravity applied, then damping). -/
theorem single_ball_gravity :
    (step [mkBall 3 400 300 20 (0, 0, 0) 0 0]).map
        (List.map fun b => (b.speed_x, b.speed_y)) =
      some [((0 : ℝ), 0.1 * 0.995)] := by
  have hm : move (mkBall 3 400 300 20 (0, 0, 0) 0 0) =
      mkBall 3 400 300 20 (0, 0, 0) 0 0.0995 := by
    rw [move_eval _ (by norm_num [mkBall]) (by norm_num [mkBall, SCREEN_WIDTH])
        (by norm_num [mkBall]) (by norm_num [mkBall, SCREEN_HEIGHT])]
    norm_num [mkBall, Ball.mk.injEq]
  rw [step_cons]
  simp only [collideWithRest, hm, step_nil]
  norm_num [mkBall]

/-- Claim C2: a pair of balls with exactly coincident centers has center
distance 0, is treated as colliding (the radius sum is positive, so
distance < radius sum holds), and `check_collision` reaches the unguarded
division by the zero distance; the resulting ZeroDivisionError is
modelled by the `none` result. -/
theorem coincident_divzero :
    dist (mkBall 1 100 100 20 (0, 0, 0) 1 1)
        (mkBall 2 100 100 20 (0, 0, 0) (-1) 1) = 0 ∧
    dist (mkBall 1 100 100 20 (0, 0, 0) 1 1)
        (mkBall 2 100 100 20 (0, 0, 0) (-1) 1) <
      (mkBall 1 100 100 20 (0, 0, 0) 1 1).radius +
        (mkBall 2 100 100 20 (0, 0, 0) (-1) 1).radius ∧
    check_collision (mkBall 1 100 100 20 (0, 0, 0) 1 1)
        (mkBall 2 100 100 20 (0, 0, 0) (-1) 1) = none := by
  have h0 : dist (mkBall 1 100 100 20 (0, 0, 0) 1 1)
      (mkBall 2 100 100 20 (0, 0, 0) (-1) 1) = 0 := by
    norm_num [dist, mkBall, Real.sqrt_zero]
  refine ⟨h0, by rw [h0]; norm_num [mkBall], ?_⟩
  simp only [check_collision, mkBall]
  norm_num [Real.sqrt_zero]

/-- First ball of the claim C1 counterexample: resting on the left half,
overlapping its neighbor. -/
def c1A : Ball := mkBall 1 20 300 20 (0, 0, 0) 0 0

/-- Second ball of the claim C1 counterexample. -/
def c1B : Ball := mkBall 2 25 300 20 (0, 0, 0) 0 0

/-- Claim C1 counterexample: one `step` on two overlapping resting balls
near the left wall ends with the first ball at x = 2 and radius 20: the
overlap separation of the collision pass is applied after the wall clamp
and pushes the ball off-screen, violating radius ≤ x. -/
theorem wall_containment_cex :
    (step [c1A, c1B]).map (List.map fun b => (b.x, b.radius)) =
      some [((2 : ℝ), (20 : ℝ)), (43, 20)] ∧ ¬((20 : ℝ) ≤ 2) := by
  have hA : move c1A = mkBall 1 20 300 20 (0, 0, 0) 0 0.0995 := by
    rw [show c1A = mkBall 1 20 300 20 (0, 0, 0) 0 0 from rfl]
    rw [move_eval _ (by norm_num [mkBall]) (by norm_num [mkBall, SCREEN_WIDTH])
        (by norm_num [mkBall]) (by norm_num [mkBall, SCREEN_HEIGHT])]
    norm_num [mkBall, Ball.mk.injEq]
  have hcc : check_collision (mkBall 1 20 300 20 (0, 0, 0) 0 0.0995) c1B =
      some (mkBall 1 2 300 20 (0, 0, 0) 0 0,
            mkBall 2 43 300 20 (0, 0, 0) 0 0.0995) := by
    rw [check_collision_eval _ _ 5
        (sqrt_eval (by norm_num) (by norm_num [c1B, mkBall]))
        (by norm_num [c1B, mkBall]) (by norm_num [c1B, mkBall]) (by norm_num)]
    norm_num [c1B, mkBall, Prod.mk.injEq, Ball.mk.injEq]
  have hB : move (mkBall 2 43 300 20 (0, 0, 0) 0 0.0995) =
      mkBall 2 43 300.0995 20 (0, 0, 0) 0 0.1985025 := by
    rw [move_eval _ (by norm_num [mkBall]) (by norm_num [mkBall, SCREEN_WIDTH])
        (by norm_num [mkBall]) (by norm_num [mkBall, SCREEN_HEIGHT])]
    norm_num [mkBall, Ball.mk.injEq]
  refine ⟨?_, by norm_num⟩
  rw [step_cons]
  simp only [collideWithRest, hA, hcc, step_cons, hB, step_nil]
  norm_num [mkBall]

/-- First ball of the claim C6 pair: position (10, 50), velocity (2, 0). -/
def c6A : Ball := mkBall 1 10 50 12 (0, 0, 0) 2 0

/-- Second ball of the claim C6 pair: position (30, 50), velocity (-2, 0). -/
def c6B : Ball := mkBall 2 30 50 12 (0, 0, 0) (-2) 0

/-- Full trace of one `step` on the claim C6 pair. -/
theorem c6_step :
    step [c6A, c6B] =
      some [mkBall 1 8.5 50 12 (0, 0, 0) (-2) 0,
            mkBall 2 35.49 50.0995 12 (0, 0, 0) 1.98005 0.1985025] := by
  have hA : move c6A = mkBall 1 12 50 12 (0, 0, 0) 1.99 0.0995 := by
    rw [show c6A = mkBall 1 10 50 12 (0, 0, 0) 2 0 from rfl]
    rw [move_eval _ (by norm_num [mkBall]) (by norm_num [mkBall, SCREEN_WIDTH])
        (by norm_num [mkBall]) (by norm_num [mkBall, SCREEN_HEIGHT])]
    norm_num [mkBall, Ball.mk.injEq]
  have hcc : check_collision (mkBall 1 12 50 12 (0, 0, 0) 1.99 0.0995) c6B =
      some (mkBall 1 8.5 50 12 (0, 0, 0) (-2) 0,
            mkBall 2 33.5 50 12 (0, 0, 0) 1.99 0.0995) := by
    rw [check_collision_eval _ _ 18
        (sqrt_eval (by norm_num) (by norm_num [c6B, mkBall]))
        (by norm_num [c6B, mkBall]) (by norm_num [c6B, mkBall]) (by norm_num)]
    norm_num [c6B, mkBall, Prod.mk.injEq, Ball.mk.injEq]
  have hB : move (mkBall 2 33.5 50 12 (0, 0, 0) 1.99 0.0995) =
      mkBall 2 35.49 50.0995 12 (0, 0, 0) 1.98005 0.1985025 := by
    rw [move_eval _ (by norm_num [mkBall]) (by norm_num [mkBall, SCREEN_WIDTH])
        (by norm_num [mkBall]) (by norm_num [mkBall, SCREEN_HEIGHT])]
    norm_num [mkBall, Ball.mk.injEq]
  rw [step_cons]
  simp only [collideWithRest, hA, hcc, step_cons, hB, step_nil]

/-- Claim C6 counterexample: on the head-on equal-mass pair of the claim,
one `step` ends with speed_x values -2 and 1.98005; the 1.98005 of the
second ball differs from the claimed 2 by 0.01995, far beyond floating
tolerance, because the exchanged velocity is damped by 0.995 in the move of
the first ball before the exchange and again in the own move of the second. -/
theorem equal_mass_swap_cex :
    (step [c6A, c6B]).map (List.map Ball.speed_x) =
      some [(-2 : ℝ), 1.98005] ∧ ¬|(1.98005 : ℝ) - 2| < 0.01 := by
  rw [c6_step]
  constructor
  · norm_num [mkBall]
  · rw [abs_of_nonpos (by norm_num)]
    norm_num

/-- Claim C6 (amended): the equal-mass exchange does swap the x
velocities, but each is damped by 0.995 once per participating move: the
first ball ends with exactly -2 (the second ball had not yet moved when
the pair was resolved) and the second ends with 2 * 0.995 ^ 2. -/
theorem equal_mass_swap_amended :
    (step [c6A, c6B]).map (List.map Ball.speed_x) =
      some [(-2 : ℝ), 2 * 0.995 ^ 2] := by
  rw [c6_step]
  norm_num [mkBall]

/-- Algebraic core of the overlap separation: moving both centers apart
along the displacement by `overlap / d` each scales the displacement by a
factor exceeding one, so the new distance is `r1 + r2 + 1 > d`. -/
theorem sep_dist (x1 y1 x2 y2 r1 r2 d : ℝ)
    (hd : Real.sqrt ((x2 - x1) ^ 2 + (y2 - y1) ^ 2) = d)
    (hd0 : 0 < d) (hsum : d < r1 + r2) :
    d < Real.sqrt
        ((x2 + 0.5 * (r1 + r2 - d + 1) * (x2 - x1) / d -
            (x1 - 0.5 * (r1 + r2 - d + 1) * (x2 - x1) / d)) ^ 2 +
         (y2 + 0.5 * (r1 + r2 - d + 1) * (y2 - y1) / d -
            (y1 - 0.5 * (r1 + r2 - d + 1) * (y2 - y1) / d)) ^ 2) := by
  have hne : d ≠ 0 := ne_of_gt hd0
  have hk0 : 0 ≤ 1 + (r1 + r2 - d + 1) / d := by
    have hdiv : 0 < (r1 + r2 - d + 1) / d :=
      div_pos (by linarith) hd0
    linarith
  have harg :
      (x2 + 0.5 * (r1 + r2 - d + 1) * (x2 - x1) / d -
         (x1 - 0.5 * (r1 + r2 - d + 1) * (x2 - x1) / d)) ^ 2 +
      (y2 + 0.5 * (r1 + r2 - d + 1) * (y2 - y1) / d -
         (y1 - 0.5 * (r1 + r2 - d + 1) * (y2 - y1) / d)) ^ 2 =
      (1 + (r1 + r2 - d + 1) / d) ^ 2 *
        ((x2 - x1) ^ 2 + (y2 - y1) ^ 2) := by
    field_simp
    ring
  rw [harg, Real.sqrt_mul (sq_nonneg _), Real.sqrt_sq hk0, hd]
  have hexp : (1 + (r1 + r2 - d + 1) / d) * d = d + (r1 + r2 - d + 1) := by
    field_simp
  rw [hexp]
  linarith

/-- Claim C7: for a colliding pair with positive center distance, the
overlap-separation step strictly increases the distance between the two
centers (the balls are pushed apart, never together). -/
theorem overlap_separation_pushes_apart (a b : Ball)
    (hd0 : 0 < dist a b) (hcol : dist a b < a.radius + b.radius)
    (hm : a.mass + b.mass ≠ 0) :
    ∃ a2 b2, check_collision a b = some (a2, b2) ∧
      dist a b < dist a2 b2 := by
  refine ⟨_, _, check_collision_eval a b (dist a b) rfl hcol hm
    (ne_of_gt hd0), ?_⟩
  exact sep_dist a.x a.y b.x b.y a.radius b.radius (dist a b) rfl hd0 hcol

/-- First ball of the claim C7 witness pair. -/
def c7a : Ball := mkBall 1 0 0 20 (0, 0, 0) 1 0

/-- Second ball of the claim C7 witness pair, at center distance 5. -/
def c7b : Ball := mkBall 2 3 4 20 (0, 0, 0) 0 1

/-- Witness for claim C7 at a concrete colliding pair. -/
theorem overlap_separation_pushes_apart_witness :
    0 < dist c7a c7b ∧ dist c7a c7b < c7a.radius + c7b.radius ∧
      c7a.mass + c7b.mass ≠ 0 ∧
      ∃ a2 b2, check_collision c7a c7b = some (a2, b2) ∧
        dist c7a c7b < dist a2 b2 := by
  have h5 : dist c7a c7b = 5 :=
    sqrt_eval (by norm_num) (by norm_num [c7a, c7b, mkBall])
  refine ⟨by rw [h5]; norm_num, by rw [h5]; norm_num [c7a, c7b, mkBall],
    by norm_num [c7a, c7b, mkBall], ?_⟩
  exact overlap_separation_pushes_apart c7a c7b (by rw [h5]; norm_num)
    (by rw [h5]; norm_num [c7a, c7b, mkBall])
    (by norm_num [c7a, c7b, mkBall])

/-- Claim C10: the collision velocity update conserves total momentum
exactly on each axis: the mass-weighted sum of the new velocities equals
the mass-weighted sum of the pre-collision velocities. -/
theorem collision_momentum (a b : Ball) (hd0 : 0 < dist a b)
    (hcol : dist a b < a.radius + b.radius) (hm : a.mass + b.mass ≠ 0) :
    ∃ a2 b2, check_collision a b = some (a2, b2) ∧
      a.mass * a2.speed_x + b.mass * b2.speed_x =
        a.mass * a.speed_x + b.mass * b.speed_x ∧
      a.mass * a2.speed_y + b.mass * b2.speed_y =
        a.mass * a.speed_y + b.mass * b.speed_y := by
  refine ⟨_, _, check_collision_eval a b (dist a b) rfl hcol hm
    (ne_of_gt hd0), ?_, ?_⟩ <;>
    · dsimp only
      field_simp
      ring

/-- First ball of the claim C10 witness pair. -/
def c10a : Ball := mkBall 1 0 0 20 (0, 0, 0) 2 3

/-- Second ball of the claim C10 witness pair, at center distance 5. -/
def c10b : Ball := mkBall 2 4 3 10 (0, 0, 0) (-1) 1

/-- Witness for claim C10 at a concrete colliding pair of unequal mass. -/
theorem collision_momentum_witness :
    0 < dist c10a c10b ∧ dist c10a c10b < c10a.radius + c10b.radius ∧
      c10a.mass + c10b.mass ≠ 0 ∧
      ∃ a2 b2, check_collision c10a c10b = some (a2, b2) ∧
        c10a.mass * a2.speed_x + c10b.mass * b2.speed_x =
          c10a.mass * c10a.speed_x + c10b.mass * c10b.speed_x ∧
        c10a.mass * a2.speed_y + c10b.mass * b2.speed_y =
          c10a.mass * c10a.speed_y + c10b.mass * c10b.speed_y := by
  have h5 : dist c10a c10b = 5 :=
    sqrt_eval (by norm_num) (by norm_num [c10a, c10b, mkBall])
  refine ⟨by rw [h5]; norm_num, by rw [h5]; norm_num [c10a, c10b, mkBall],
    by norm_num [c10a, c10b, mkBall], ?_⟩
  exact collision_momentum c10a c10b (by rw [h5]; norm_num)
    (by rw [h5]; norm_num [c10a, c10b, mkBall])
    (by norm_num [c10a, c10b, mkBall])

/-- Lemma: `ballRadii` produces one radius per digit. -/
theorem ballRadii_length (ds : List ℕ) (counts : ℕ → ℕ) :
    (ballRadii ds counts).length = ds.length := by
  induction ds generalizing counts with
  | nil => rfl
  | cons d t ih => simp [ballRadii, ih]

/-- The i-th radius produced by `ballRadii` is determined by the running
occurrence count of the i-th digit, INCLUDING the current occurrence. -/
theorem ballRadii_getD (ds : List ℕ) (counts : ℕ → ℕ) (i : ℕ)
    (h : i < ds.length) :
    (ballRadii ds counts).getD i 0 =
      min (20 + (counts (ds.getD i 0) +
        (ds.take (i + 1)).count (ds.getD i 0)) / 3) 40 := by
  induction ds generalizing counts i with
  | nil => exact absurd h (by simp)
  | cons d t ih =>
    cases i with
    | zero => simp [ballRadii, List.count_cons]
    | succ i =>
      have h2 : i < t.length := by
        rw [List.length_cons] at h
        omega
      rw [show ballRadii (d :: t) counts =
            min (20 + (counts d + 1) / 3) 40 ::
              ballRadii t (fun k => if k = d then counts d + 1 else counts k)
          from rfl]
      rw [List.getD_cons_succ, List.getD_cons_succ, ih _ _ h2,
        List.take_succ_cons]
      by_cases hgd : t.getD i 0 = d
      · rw [hgd, List.count_cons_self, if_pos rfl]
        omega
      · rw [List.count_cons_of_ne hgd, if_neg hgd]

/-- Claim C9 (amended): the driver assigns each ball the radius
min(20 + c // 3, 40), where c counts the occurrences of the digit so far
INCLUDING the current one (`digit_counts[digit] += 1` runs before the
radius is computed); consequently every radius lies in [20, 40]. -/
theorem radius_assignment (pi_digits : List ℕ) (max_balls i : ℕ)
    (h : i < (runRadii pi_digits max_balls).length) :
    (runRadii pi_digits max_balls).getD i 0 =
      min (20 +
        ((pi_digits.take (min max_balls pi_digits.length)).take (i + 1)).count
          ((pi_digits.take (min max_balls pi_digits.length)).getD i 0) / 3)
        40 ∧
    20 ≤ (runRadii pi_digits max_balls).getD i 0 ∧
    (runRadii pi_digits max_balls).getD i 0 ≤ 40 := by
  have hlen : i < (pi_digits.take (min max_balls pi_digits.length)).length := by
    rw [runRadii, ballRadii_length] at h
    exact h
  have hval := ballRadii_getD
    (pi_digits.take (min max_balls pi_digits.length)) (fun _ => 0) i hlen
  refine ⟨?_, ?_, ?_⟩
  · rw [runRadii, hval]; simp
  · rw [runRadii, hval]; omega
  · rw [runRadii, hval]; omega

/-- Claim C9 counterexample: on the input [5, 5, 5] the code gives the
third ball radius 20 + 3 // 3 = 21 (the count includes the current
occurrence), while the claimed formula, 20 plus occurrences already
placed // 3 capped at 40, gives min(20 + 2 // 3, 40) = 20. -/
theorem radius_assignment_cex :
    runRadii [5, 5, 5] 100 = [20, 20, 21] ∧
    ballRadiiClaim [5, 5, 5] (fun _ => 0) = [20, 20, 20] ∧
    (21 : ℕ) ≠ 20 := by
  refine ⟨rfl, rfl, by decide⟩

/-- Witness for claim C9 (amended) at the input [5, 5, 5], index 2. -/
theorem radius_assignment_witness :
    2 < (runRadii [5, 5, 5] 100).length ∧
      ((runRadii [5, 5, 5] 100).getD 2 0 = 21 ∧
       20 ≤ (runRadii [5, 5, 5] 100).getD 2 0 ∧
       (runRadii [5, 5, 5] 100).getD 2 0 ≤ 40) :=
  ⟨by decide, radius_assignment [5, 5, 5] 100 2 (by decide)⟩

end

end RollingBalls
